import Mathlib

/-!
Shallow embedding of the androidbinary resource-table decoder and resolver
(src/table.go), together with proofs settling the frozen claims about its
configuration-matching, best-match selection, resolution and chunk-walk code.

Machine integers (uint8/uint16/uint32 fields) are modelled as `Nat`: the
comparison algorithms only ever test equality, zero-ness and order of these
fields, never arithmetic, so no overflow can distinguish the models.  Where the
source does perform wrap-around arithmetic (uint32 offset additions and
subtractions in the byte-level decoder) the reduction modulo 2^32 is written
explicitly.  Go pointers that the source can observe as nil are modelled with
`Option`; a Go runtime panic (nil dereference, index out of range) is modelled
as the `none` result of the enclosing operation; Go infinite loops are
modelled with an explicit fuel parameter, `none` meaning fuel ran out.
-/

/-- The set of qualifier axes of one resource variant, mirroring
`ResTableConfig` in src/table.go.  `Language` and `Country` model the
`[2]uint8` arrays as pairs (`.1` is index 0, `.2` is index 1). -/
structure ResTableConfig where
  Size : Nat
  Mcc : Nat
  Mnc : Nat
  Language : Nat × Nat
  Country : Nat × Nat
  Orientation : Nat
  Touchscreen : Nat
  Density : Nat
  Keyboard : Nat
  Navigation : Nat
  InputFlags : Nat
  InputPad0 : Nat
  ScreenWidth : Nat
  ScreenHeight : Nat
  SDKVersion : Nat
  MinorVersion : Nat
  ScreenLayout : Nat
  UIMode : Nat
  ScreenConfigPad1 : Nat
  ScreenConfigPad2 : Nat
  deriving Repr, DecidableEq

/-- The all-unspecified (zero-valued) configuration. -/
def defaultConfig : ResTableConfig :=
  ⟨0, 0, 0, (0, 0), (0, 0), 0, 0, 0, 0, 0, 0, 0, 0, 0, 0, 0, 0, 0, 0, 0⟩

/-- `(*ResTableConfig).IsMoreSpecificThan` from src/table.go lines 306-404,
translated statement by statement (early `return` via the `Id` monad).  Note
the source tests `o.Mnc` (not `o.Mcc`) inside the Mcc block at line 312; the
translation keeps that literally. -/
def ResTableConfig.IsMoreSpecificThan (c o : ResTableConfig) : Bool := Id.run do
  -- imsi
  if c.Mcc ≠ o.Mcc then
    if c.Mcc ≠ 0 then return false
    if o.Mnc ≠ 0 then return true
  if c.Mnc ≠ o.Mnc then
    if c.Mnc ≠ 0 then return false
    if o.Mnc ≠ 0 then return true
  -- locale
  if c.Language.1 ≠ o.Language.1 then
    if c.Language.1 ≠ 0 then return false
    if o.Language.1 ≠ 0 then return true
  if c.Country.1 ≠ o.Country.1 then
    if c.Country.1 ≠ 0 then return false
    if o.Country.1 ≠ 0 then return true
  -- orientation
  if c.Orientation ≠ o.Orientation then
    if c.Orientation ≠ 0 then return false
    if o.Orientation ≠ 0 then return true
  -- touchscreen
  if c.Touchscreen ≠ o.Touchscreen then
    if c.Touchscreen ≠ 0 then return false
    if o.Touchscreen ≠ 0 then return true
  -- screen size
  if c.ScreenWidth ≠ o.ScreenWidth then
    if c.ScreenWidth ≠ 0 then return false
    if o.ScreenWidth ≠ 0 then return true
  if c.ScreenHeight ≠ o.ScreenHeight then
    if c.ScreenHeight ≠ 0 then return false
    if o.ScreenHeight ≠ 0 then return true
  -- version
  if c.SDKVersion ≠ o.SDKVersion then
    if c.SDKVersion ≠ 0 then return false
    if o.SDKVersion ≠ 0 then return true
  if c.MinorVersion ≠ o.MinorVersion then
    if c.MinorVersion ≠ 0 then return false
    if o.MinorVersion ≠ 0 then return true
  return false

/-- `(*ResTableConfig).IsBetterThan` from src/table.go lines 406-465.  The
`r` argument is the Go `*ResTableConfig` pointer, which the source explicitly
compares against nil, hence `Option`.  The version-block guard at line 455
literally reads `c.SDKVersion != 0 || c.SDKVersion != 0 || o.MinorVersion != 0
|| o.MinorVersion != 0` (two fields each tested twice); the translation keeps
those duplicates exactly as written. -/
def ResTableConfig.IsBetterThan (c o : ResTableConfig) (r : Option ResTableConfig) : Bool :=
  match r with
  | none => c.IsMoreSpecificThan o
  | some r => Id.run do
    -- imsi
    if c.Mcc ≠ 0 ∨ c.Mnc ≠ 0 ∨ o.Mcc ≠ 0 ∨ o.Mnc ≠ 0 then
      if c.Mcc ≠ o.Mcc ∧ r.Mcc ≠ 0 then return decide (c.Mcc ≠ 0)
      if c.Mnc ≠ o.Mnc ∧ r.Mnc ≠ 0 then return decide (c.Mnc ≠ 0)
    -- locale
    if c.Language.1 ≠ 0 ∨ c.Country.1 ≠ 0 ∨ o.Language.1 ≠ 0 ∨ o.Country.1 ≠ 0 then
      if c.Language.1 ≠ o.Language.1 ∧ r.Language.1 ≠ 0 then return decide (c.Language.1 ≠ 0)
      if c.Country.1 ≠ o.Country.1 ∧ r.Country.1 ≠ 0 then return decide (c.Country.1 ≠ 0)
    -- orientation
    if c.Orientation ≠ o.Orientation ∨ r.Orientation ≠ 0 then
      return decide (c.Orientation ≠ 0)
    -- screen size
    if c.ScreenWidth ≠ 0 ∨ c.ScreenHeight ≠ 0 ∨ o.ScreenWidth ≠ 0 ∨ o.ScreenHeight ≠ 0 then
      if c.ScreenWidth ≠ o.ScreenWidth ∧ r.ScreenWidth ≠ 0 then return decide (c.ScreenWidth ≠ 0)
      if c.ScreenHeight ≠ o.ScreenHeight ∧ r.ScreenHeight ≠ 0 then return decide (c.ScreenHeight ≠ 0)
    -- version (source line 455 repeats c.SDKVersion and o.MinorVersion)
    if c.SDKVersion ≠ 0 ∨ c.SDKVersion ≠ 0 ∨ o.MinorVersion ≠ 0 ∨ o.MinorVersion ≠ 0 then
      if c.SDKVersion ≠ o.SDKVersion ∧ r.SDKVersion ≠ 0 then
        return decide (c.SDKVersion > o.SDKVersion)
      if c.MinorVersion ≠ o.MinorVersion then return decide (c.MinorVersion ≠ 0)
    return false

/-- `(*ResTableConfig).Match` from src/table.go lines 467-523: a chain of
reject conditions; the candidate is usable iff none fires.  Each `if`
condition below is the corresponding Go early-`return false` condition. -/
def ResTableConfig.Match (c settings : ResTableConfig) : Bool :=
  -- match imsi
  if (if settings.Mcc = 0 then c.Mcc ≠ 0 else c.Mcc ≠ 0 ∧ c.Mcc ≠ settings.Mcc) then false
  else if (if settings.Mnc = 0 then c.Mnc ≠ 0 else c.Mnc ≠ 0 ∧ c.Mnc ≠ settings.Mnc) then false
  -- match locale
  else if settings.Language.1 ≠ 0 ∧ c.Language.1 ≠ 0 ∧
      ¬(settings.Language.1 = c.Language.1 ∧ settings.Language.2 = c.Language.2) then false
  else if settings.Country.1 ≠ 0 ∧ c.Country.1 ≠ 0 ∧
      ¬(settings.Country.1 = c.Country.1 ∧ settings.Country.2 = c.Country.2) then false
  -- screen size
  else if settings.ScreenWidth ≠ 0 ∧ c.ScreenWidth ≠ 0 ∧
      c.ScreenWidth ≠ settings.ScreenWidth then false
  else if settings.ScreenHeight ≠ 0 ∧ c.ScreenHeight ≠ 0 ∧
      c.ScreenHeight ≠ settings.ScreenHeight then false
  -- version
  else if settings.SDKVersion ≠ 0 ∧ c.SDKVersion ≠ 0 ∧
      c.SDKVersion > settings.SDKVersion then false
  else if settings.MinorVersion ≠ 0 ∧ c.MinorVersion ≠ 0 ∧
      c.MinorVersion ≠ settings.MinorVersion then false
  else true

/-- `ResChunkHeader`: the common chunk header.  Its Go declaration lives in a
source file of the repository outside src/; layout per the spec (§6): 16-bit
type tag, 16-bit header size, 32-bit total chunk size.  The Go field `Type`
is renamed `ChunkType` because `Type` is a Lean keyword. -/
structure ResChunkHeader where
  ChunkType : Nat
  HeaderSize : Nat
  Size : Nat
  deriving Repr, DecidableEq

/-- `ResTableHeader` from src/table.go. -/
structure ResTableHeader where
  Header : ResChunkHeader
  PackageCount : Nat
  deriving Repr, DecidableEq

/-- `ResTablePackage` from src/table.go; `Name` models the `[128]uint16`
array as a list of the 128 units. -/
structure ResTablePackage where
  Header : ResChunkHeader
  Id : Nat
  Name : List Nat
  TypeStrings : Nat
  LastPublicType : Nat
  KeyStrings : Nat
  LastPublicKey : Nat
  deriving Repr, DecidableEq

/-- `ResTableType` from src/table.go. -/
structure ResTableType where
  Header : ResChunkHeader
  Id : Nat
  Res0 : Nat
  Res1 : Nat
  EntryCount : Nat
  EntriesStart : Nat
  Config : ResTableConfig
  deriving Repr, DecidableEq

/-- `ResTableEntry` from src/table.go (`Key` is the raw string-pool
reference, a uint32). -/
structure ResTableEntry where
  Size : Nat
  Flags : Nat
  Key : Nat
  deriving Repr, DecidableEq

/-- `ResValue`: its Go declaration lives outside src/; layout per the spec
(§6): 16-bit size, 8-bit reserved, 8-bit type tag, 32-bit payload. -/
structure ResValue where
  Size : Nat
  Res0 : Nat
  DataType : Nat
  Data : Nat
  deriving Repr, DecidableEq

/-- `TableEntry` from src/table.go.  `Key` and `Value` are Go pointers,
nil exactly when the slot was left empty by the sentinel entry index. -/
structure TableEntry where
  Key : Option ResTableEntry
  Value : Option ResValue
  Flags : Nat
  deriving Repr, DecidableEq

/-- `TableType` from src/table.go. -/
structure TableType where
  Header : ResTableType
  Entries : List TableEntry
  deriving Repr, DecidableEq

/-- `ResTableTypeSpec` from src/table.go. -/
structure ResTableTypeSpec where
  Header : ResChunkHeader
  Id : Nat
  Res0 : Nat
  Res1 : Nat
  EntryCount : Nat
  deriving Repr, DecidableEq

/-- Modelled from the spec: the string-pool decoder and its `ResStringPool`
type are an external collaborator (spec §1, §2) whose Go source file is not
under src/; the spec gives it one operation, `stringAt(index) -> text`.  We
keep only the resulting table of strings. -/
structure ResStringPool where
  strings : List String
  deriving Repr, DecidableEq

/-- Modelled from the spec: `GetString` on a pool resolves an ordinal to its
text (spec §2, `stringAt(index) -> text`); out-of-range behaviour is not
exercised by any claim, modelled as the empty string. -/
def ResStringPool.GetString (sp : ResStringPool) (ref : Nat) : String :=
  sp.strings.getD ref ""

/-- `TablePackage` from src/table.go; the string-pool pointers may be nil
before decoding fills them. -/
structure TablePackage where
  Header : ResTablePackage
  TypeStrings : Option ResStringPool
  KeyStrings : Option ResStringPool
  TableTypes : List TableType
  deriving Repr, DecidableEq

/-- `TableFile` from src/table.go.  The Go `map[uint32]*TablePackage` is
modelled as an association list keyed by package id (Go map lookup = `lookup`,
missing key = `none`, mirroring the nil zero value). -/
structure TableFile where
  stringPool : Option ResStringPool
  tablePackages : List (Nat × TablePackage)
  deriving Repr, DecidableEq

/-- `ResId` from src/table.go: a uint32 resource identifier. -/
abbrev ResId : Type := Nat

/-- `(ResId).Package()`: bits 24-31 (`int(id) >> 24` on a uint32 value). -/
def ResId.Package (id : ResId) : Nat := (id % 4294967296) >>> 24

/-- `(ResId).Type()`: bits 16-23 (`(int(id) >> 16) & 0xFF`). -/
def ResId.TypeId (id : ResId) : Nat := ((id % 4294967296) >>> 16) % 256

/-- `(ResId).Entry()`: bits 0-15 (`int(id) & 0xFFFF`). -/
def ResId.Entry (id : ResId) : Nat := (id % 4294967296) % 65536

/-- `(*TableFile).findPackage` from src/table.go lines 141-143: Go map
lookup; a missing id yields the map's zero value, the nil pointer. -/
def TableFile.findPackage (f : TableFile) (id : Nat) : Option TablePackage :=
  f.tablePackages.lookup id

/-- `(*TablePackage).findType` from src/table.go lines 145-159: linear scan
over the package's type list keeping the first candidate and replacing it
only when `IsBetterThan` says the newcomer is better. -/
def TablePackage.findType (p : TablePackage) (id : Nat) (config : ResTableConfig) :
    Option TableType :=
  p.TableTypes.foldl (fun best t =>
    if t.Header.Id ≠ id then best
    else if ¬(t.Header.Config.Match config = true) then best
    else match best with
      | none => some t
      | some b =>
        if t.Header.Config.IsBetterThan b.Header.Config (some config) = true then some t
        else best) none

/-- `(*TableFile).GetString` from src/table.go lines 181-183; the receiver's
`stringPool` pointer is dereferenced unconditionally, so a nil pool is a
panic (`none`). -/
def TableFile.GetString (f : TableFile) (ref : Nat) : Option String :=
  match f.stringPool with
  | none => none
  | some sp => some (sp.GetString ref)

/-- Modelled from the spec: the value type-tag constants (`TYPE_NULL` etc.)
are declared in a source file of the repository outside src/; the spec (§3,
§4.4) fixes the set of tags (null, string, int-decimal, int-hex, boolean,
other raw).  The numerals follow the Android ResourceTypes convention; only
their distinctness matters to any claim. -/
def TYPE_NULL : Nat := 0

/-- Modelled from the spec: see `TYPE_NULL`. -/
def TYPE_STRING : Nat := 3

/-- Modelled from the spec: see `TYPE_NULL`. -/
def TYPE_INT_DEC : Nat := 16

/-- Modelled from the spec: see `TYPE_NULL`. -/
def TYPE_INT_HEX : Nat := 17

/-- Modelled from the spec: see `TYPE_NULL`. -/
def TYPE_INT_BOOLEAN : Nat := 18

/-- The dynamic value of Go's `interface{}` as returned by `GetResource`:
nil, a string, a uint32 payload, or a bool. -/
inductive GoValue where
  | vnull
  | vstr (s : String)
  | vint (n : Nat)
  | vbool (b : Bool)
  deriving Repr, DecidableEq

/-- `(*TableFile).GetResource` from src/table.go lines 161-179.  The result
models the Go pair `(interface{}, error)`: `none` is a runtime panic (nil
`*TablePackage` dereferenced inside `findType`, nil `*TableType` dereferenced
at `t.Entries`, entry index out of range, nil `*ResValue` dereferenced at
`v.DataType`, nil string pool inside `GetString`); `some (v, e)` is a normal
return with value `v` and error `e` (`none` = nil error). -/
def TableFile.GetResource (f : TableFile) (id : ResId) (config : ResTableConfig) :
    Option (GoValue × Option Unit) :=
  match f.findPackage id.Package with
  | none => none
  | some p =>
    match p.findType id.TypeId config with
    | none => none
    | some t =>
      match t.Entries.get? id.Entry with
      | none => none
      | some e =>
        match e.Value with
        | none => none
        | some v =>
          if v.DataType = TYPE_NULL then some (.vnull, none)
          else if v.DataType = TYPE_STRING then
            match f.GetString v.Data with
            | none => none
            | some s => some (.vstr s, none)
          else if v.DataType = TYPE_INT_DEC then some (.vint v.Data, none)
          else if v.DataType = TYPE_INT_HEX then some (.vint v.Data, none)
          else if v.DataType = TYPE_INT_BOOLEAN then some (.vbool (decide (v.Data ≠ 0)), none)
          else some (.vint v.Data, none)

/-- Structural decode failure (`DecodeError` family of the spec): a
`binary.Read` or nested string-pool read failed. -/
inductive DecodeErr where
  | readFailed
  deriving Repr, DecidableEq

/-- A positioned, bounded view of the byte source, modelling Go's
`io.SectionReader`: reads of index `i` succeed only for `i < len` and while
the underlying data has a byte at `off + i`. -/
structure ByteSpan where
  data : List Nat
  off : Nat
  len : Nat
  deriving Repr, DecidableEq

/-- Read one byte at position `i` of the span (EOF = `none`). -/
def ByteSpan.byteAt (s : ByteSpan) (i : Nat) : Option Nat :=
  if i < s.len then s.data.get? (s.off + i) else none

/-- `io.NewSectionReader(s, o, n)`: a sub-span starting at `o`, bounded both
by `n` and by the parent's own bound. -/
def ByteSpan.sub (s : ByteSpan) (o n : Nat) : ByteSpan :=
  ⟨s.data, s.off + o, min n (s.len - o)⟩

/-- Little-endian uint16 at position `p`. -/
def ByteSpan.readU16 (s : ByteSpan) (p : Nat) : Option Nat := do
  let b0 ← s.byteAt p
  let b1 ← s.byteAt (p + 1)
  pure (b0 + b1 * 256)

/-- Little-endian uint32 at position `p`. -/
def ByteSpan.readU32 (s : ByteSpan) (p : Nat) : Option Nat :=
  match s.byteAt p with
  | none => none
  | some b0 =>
  match s.byteAt (p + 1) with
  | none => none
  | some b1 =>
  match s.byteAt (p + 2) with
  | none => none
  | some b2 =>
  match s.byteAt (p + 3) with
  | none => none
  | some b3 =>
  some (b0 + b1 * 256 + b2 * 65536 + b3 * 16777216)

/-- `n` consecutive little-endian uint16 values starting at `p`. -/
def ByteSpan.readU16List (s : ByteSpan) (p : Nat) : Nat → Option (List Nat)
  | 0 => some []
  | n + 1 => do
    let x ← s.readU16 p
    let rest ← s.readU16List (p + 2) n
    pure (x :: rest)

/-- `n` consecutive little-endian uint32 values starting at `p`
(`binary.Read` into a `[]uint32`). -/
def ByteSpan.readU32List (s : ByteSpan) (p : Nat) : Nat → Option (List Nat)
  | 0 => some []
  | n + 1 => do
    let x ← s.readU32 p
    let rest ← s.readU32List (p + 4) n
    pure (x :: rest)

/-- uint32 wrap-around for Go's unsigned offset arithmetic. -/
def u32 (n : Nat) : Nat := n % 4294967296

/-- Go uint32 subtraction `a - b` (wraps modulo 2^32). -/
def u32sub (a b : Nat) : Nat := (u32 a + 4294967296 - u32 b) % 4294967296

/-- `binary.Read` of a `ResChunkHeader` (8 bytes) at position `p`. -/
def readResChunkHeader (s : ByteSpan) (p : Nat) : Option ResChunkHeader :=
  match s.readU16 p with
  | none => none
  | some t =>
  match s.readU16 (p + 2) with
  | none => none
  | some hs =>
  match s.readU32 (p + 4) with
  | none => none
  | some sz => some ⟨t, hs, sz⟩

/-- `binary.Read` of a `ResTableHeader` (12 bytes) at position `p`. -/
def readResTableHeader (s : ByteSpan) (p : Nat) : Option ResTableHeader :=
  match readResChunkHeader s p with
  | none => none
  | some h =>
  match s.readU32 (p + 8) with
  | none => none
  | some pc => some ⟨h, pc⟩

/-- `binary.Read` of the imsi group of a `ResTableConfig` (Mcc, Mnc). -/
def readConfigImsi (s : ByteSpan) (p : Nat) : Option (Nat × Nat) :=
  match s.readU16 (p + 4) with
  | none => none
  | some mcc =>
  match s.readU16 (p + 6) with
  | none => none
  | some mnc => some (mcc, mnc)

/-- `binary.Read` of the locale group of a `ResTableConfig` (Language,
Country, each a `[2]uint8`). -/
def readConfigLocale (s : ByteSpan) (p : Nat) : Option ((Nat × Nat) × (Nat × Nat)) :=
  match s.byteAt (p + 8) with
  | none => none
  | some lang0 =>
  match s.byteAt (p + 9) with
  | none => none
  | some lang1 =>
  match s.byteAt (p + 10) with
  | none => none
  | some country0 =>
  match s.byteAt (p + 11) with
  | none => none
  | some country1 => some ((lang0, lang1), (country0, country1))

/-- `binary.Read` of the screen-type group of a `ResTableConfig`
(Orientation, Touchscreen, Density). -/
def readConfigScreenType (s : ByteSpan) (p : Nat) : Option (Nat × Nat × Nat) :=
  match s.byteAt (p + 12) with
  | none => none
  | some orient =>
  match s.byteAt (p + 13) with
  | none => none
  | some touch =>
  match s.readU16 (p + 14) with
  | none => none
  | some density => some (orient, touch, density)

/-- `binary.Read` of the input group of a `ResTableConfig` (Keyboard,
Navigation, InputFlags, InputPad0). -/
def readConfigInput (s : ByteSpan) (p : Nat) : Option (Nat × Nat × Nat × Nat) :=
  match s.byteAt (p + 16) with
  | none => none
  | some keyboard =>
  match s.byteAt (p + 17) with
  | none => none
  | some nav =>
  match s.byteAt (p + 18) with
  | none => none
  | some inputFlags =>
  match s.byteAt (p + 19) with
  | none => none
  | some inputPad0 => some (keyboard, nav, inputFlags, inputPad0)

/-- `binary.Read` of the screen-size group of a `ResTableConfig`
(ScreenWidth, ScreenHeight). -/
def readConfigScreen (s : ByteSpan) (p : Nat) : Option (Nat × Nat) :=
  match s.readU16 (p + 20) with
  | none => none
  | some sw =>
  match s.readU16 (p + 22) with
  | none => none
  | some sh => some (sw, sh)

/-- `binary.Read` of the version group of a `ResTableConfig` (SDKVersion,
MinorVersion). -/
def readConfigVersion (s : ByteSpan) (p : Nat) : Option (Nat × Nat) :=
  match s.readU16 (p + 24) with
  | none => none
  | some sdk =>
  match s.readU16 (p + 26) with
  | none => none
  | some minor => some (sdk, minor)

/-- `binary.Read` of the screen-config group of a `ResTableConfig`
(ScreenLayout, UIMode and the two pad bytes). -/
def readConfigScreenConfig (s : ByteSpan) (p : Nat) : Option (Nat × Nat × Nat × Nat) :=
  match s.byteAt (p + 28) with
  | none => none
  | some sl =>
  match s.byteAt (p + 29) with
  | none => none
  | some ui =>
  match s.byteAt (p + 30) with
  | none => none
  | some pad1 =>
  match s.byteAt (p + 31) with
  | none => none
  | some pad2 => some (sl, ui, pad1, pad2)

/-- `binary.Read` of a `ResTableConfig` (32 bytes, field groups in
declaration order) at position `p`. -/
def readResTableConfig (s : ByteSpan) (p : Nat) : Option ResTableConfig :=
  match s.readU32 p with
  | none => none
  | some size =>
  match readConfigImsi s p with
  | none => none
  | some imsi =>
  match readConfigLocale s p with
  | none => none
  | some locale =>
  match readConfigScreenType s p with
  | none => none
  | some st =>
  match readConfigInput s p with
  | none => none
  | some input =>
  match readConfigScreen s p with
  | none => none
  | some screen =>
  match readConfigVersion s p with
  | none => none
  | some version =>
  match readConfigScreenConfig s p with
  | none => none
  | some sc =>
  some ⟨size, imsi.1, imsi.2, locale.1, locale.2, st.1, st.2.1, st.2.2,
    input.1, input.2.1, input.2.2.1, input.2.2.2, screen.1, screen.2,
    version.1, version.2, sc.1, sc.2.1, sc.2.2.1, sc.2.2.2⟩

/-- `binary.Read` of a `ResTableType` header (52 bytes) at position `p`. -/
def readResTableType (s : ByteSpan) (p : Nat) : Option ResTableType :=
  match readResChunkHeader s p with
  | none => none
  | some h =>
  match s.byteAt (p + 8) with
  | none => none
  | some id =>
  match s.byteAt (p + 9) with
  | none => none
  | some res0 =>
  match s.readU16 (p + 10) with
  | none => none
  | some res1 =>
  match s.readU32 (p + 12) with
  | none => none
  | some entryCount =>
  match s.readU32 (p + 16) with
  | none => none
  | some entriesStart =>
  match readResTableConfig s (p + 20) with
  | none => none
  | some config =>
  some ⟨h, id, res0, res1, entryCount, entriesStart, config⟩

/-- `binary.Read` of a `ResTableTypeSpec` header (16 bytes) at position `p`. -/
def readResTableTypeSpec (s : ByteSpan) (p : Nat) : Option ResTableTypeSpec :=
  match readResChunkHeader s p with
  | none => none
  | some h =>
  match s.byteAt (p + 8) with
  | none => none
  | some id =>
  match s.byteAt (p + 9) with
  | none => none
  | some res0 =>
  match s.readU16 (p + 10) with
  | none => none
  | some res1 =>
  match s.readU32 (p + 12) with
  | none => none
  | some entryCount =>
  some ⟨h, id, res0, res1, entryCount⟩

/-- `binary.Read` of a `ResTablePackage` header (284 bytes) at position `p`. -/
def readResTablePackage (s : ByteSpan) (p : Nat) : Option ResTablePackage :=
  match readResChunkHeader s p with
  | none => none
  | some h =>
  match s.readU32 (p + 8) with
  | none => none
  | some id =>
  match s.readU16List (p + 12) 128 with
  | none => none
  | some name =>
  match s.readU32 (p + 268) with
  | none => none
  | some typeStrings =>
  match s.readU32 (p + 272) with
  | none => none
  | some lastPublicType =>
  match s.readU32 (p + 276) with
  | none => none
  | some keyStrings =>
  match s.readU32 (p + 280) with
  | none => none
  | some lastPublicKey =>
  some ⟨h, id, name, typeStrings, lastPublicType, keyStrings, lastPublicKey⟩

/-- `binary.Read` of a `ResTableEntry` (8 bytes) at position `p`. -/
def readResTableEntry (s : ByteSpan) (p : Nat) : Option ResTableEntry :=
  match s.readU16 p with
  | none => none
  | some size =>
  match s.readU16 (p + 2) with
  | none => none
  | some flags =>
  match s.readU32 (p + 4) with
  | none => none
  | some key => some ⟨size, flags, key⟩

/-- `binary.Read` of a `ResValue` (8 bytes) at position `p`. -/
def readResValue (s : ByteSpan) (p : Nat) : Option ResValue :=
  match s.readU16 p with
  | none => none
  | some size =>
  match s.byteAt (p + 2) with
  | none => none
  | some res0 =>
  match s.byteAt (p + 3) with
  | none => none
  | some dataType =>
  match s.readU32 (p + 4) with
  | none => none
  | some data => some ⟨size, res0, dataType, data⟩

/-- Modelled from the spec: chunk type tags (`RES_STRING_POOL_TYPE` etc.) are
declared in a source file of the repository outside src/; numerals follow the
Android ResourceTypes convention.  Only their distinctness drives any claim
(they select the dispatch arm in the chunk walks). -/
def RES_STRING_POOL_TYPE : Nat := 1

/-- Modelled from the spec: see `RES_STRING_POOL_TYPE`. -/
def RES_TABLE_PACKAGE_TYPE : Nat := 512

/-- Modelled from the spec: see `RES_STRING_POOL_TYPE`. -/
def RES_TABLE_TYPE_TYPE : Nat := 513

/-- Modelled from the spec: see `RES_STRING_POOL_TYPE`. -/
def RES_TABLE_TYPE_SPEC_TYPE : Nat := 514

/-- Modelled from the spec: `readStringPool` is the external string-pool
decoder (spec §1, §2), whose Go source file is not under src/.  Per the spec
it decodes a self-contained chunk into a table of strings and an unreadable
pool is a decode error; we require the chunk header to be readable and leave
the decoded strings abstract (empty), since no claim depends on pool
contents. -/
def readStringPool (sr : ByteSpan) : Except DecodeErr ResStringPool :=
  match readResChunkHeader sr 0 with
  | none => .error .readFailed
  | some _ => .ok ⟨[]⟩

/-- One slot of `readTableType`'s entry loop (src/table.go lines 273-285):
seek to `EntriesStart + index`, read the entry header and then the value.
The source ignores both `binary.Read` errors (lines 279 and 283), leaving the
zero-valued record on failure, which `getD` reproduces. -/
def readEntryAt (sr : ByteSpan) (pos : Nat) : TableEntry :=
  let key := (readResTableEntry sr pos).getD ⟨0, 0, 0⟩
  let val := (readResValue sr (pos + 8)).getD ⟨0, 0, 0, 0⟩
  ⟨some key, some val, 0⟩

/-- `readTableType` from src/table.go lines 260-290: read the type header,
the `EntryCount` entry indexes at `HeaderSize`, then each non-sentinel entry;
a slot whose index is the all-ones sentinel 0xFFFFFFFF stays at the zero
value (nil key, nil value). -/
def readTableType (sr : ByteSpan) : Except DecodeErr TableType :=
  match readResTableType sr 0 with
  | none => .error .readFailed
  | some header =>
    match sr.readU32List header.Header.HeaderSize header.EntryCount with
    | none => .error .readFailed
    | some entryIndexes =>
      let entries := entryIndexes.map (fun index =>
        if index = 4294967295 then ⟨none, none, 0⟩
        else readEntryAt sr (u32 (header.EntriesStart + index)))
      .ok ⟨header, entries⟩

/-- `readTableTypeSpec` from src/table.go lines 292-304. -/
def readTableTypeSpec (sr : ByteSpan) : Except DecodeErr (List Nat) :=
  match readResTableTypeSpec sr 0 with
  | none => .error .readFailed
  | some header =>
    match sr.readU32List header.Header.HeaderSize header.EntryCount with
    | none => .error .readFailed
    | some flags => .ok flags

/-- The nested chunk walk of `readTablePackage` (src/table.go lines 232-255),
with explicit fuel: `none` means the walk never terminates (the source has no
guard against a chunk whose declared size fails to advance `offset`). -/
def packageChunkLoop (sr : ByteSpan) (total : Nat) :
    Nat → Nat → TablePackage → Option (Except DecodeErr TablePackage)
  | 0, _, _ => none
  | fuel + 1, offset, acc =>
    if offset < total then
      match readResChunkHeader sr offset with
      | none => some (.error .readFailed)
      | some ch =>
        let chunkReader := sr.sub offset ch.Size
        if ch.ChunkType = RES_TABLE_TYPE_TYPE then
          match readTableType chunkReader with
          | .error e => some (.error e)
          | .ok tt =>
            packageChunkLoop sr total fuel (offset + ch.Size)
              { acc with TableTypes := acc.TableTypes ++ [tt] }
        else if ch.ChunkType = RES_TABLE_TYPE_SPEC_TYPE then
          match readTableTypeSpec chunkReader with
          | .error e => some (.error e)
          | .ok _ => packageChunkLoop sr total fuel (offset + ch.Size) acc
        else packageChunkLoop sr total fuel (offset + ch.Size) acc
    else some (.ok acc)

/-- `readTablePackage` from src/table.go lines 210-258: read the package
header, decode the two nested string pools at their declared offsets (uint32
arithmetic for the section lengths), then walk the nested chunks. -/
def readTablePackage (fuel : Nat) (sr : ByteSpan) : Option (Except DecodeErr TablePackage) :=
  match readResTablePackage sr 0 with
  | none => some (.error .readFailed)
  | some header =>
    let srTypes := sr.sub header.TypeStrings (u32sub header.Header.Size header.TypeStrings)
    match readStringPool srTypes with
    | .error e => some (.error e)
    | .ok typeStrings =>
      let srKeys := sr.sub header.KeyStrings (u32sub header.Header.Size header.KeyStrings)
      match readStringPool srKeys with
      | .error e => some (.error e)
      | .ok keyStrings =>
        packageChunkLoop sr header.Header.Size fuel header.Header.HeaderSize
          ⟨header, some typeStrings, some keyStrings, []⟩

/-- Go map assignment `m[k] = v` on the association-list model. -/
def mapInsert (m : List (Nat × TablePackage)) (k : Nat) (v : TablePackage) :
    List (Nat × TablePackage) :=
  match m with
  | [] => [(k, v)]
  | (k', v') :: rest => if k' = k then (k, v) :: rest else (k', v') :: mapInsert rest k v

/-- `(*TableFile).readChunk` from src/table.go lines 185-208: read the chunk
header at `offset` within a fresh unbounded sub-span, then dispatch on the
chunk type.  Note that on a package chunk the source stores
`tablePackage.Header.Id` before checking the error from `readTablePackage`,
so a failed package decode dereferences the nil pointer — a panic (`none`),
not an error return. -/
def readChunk (fuel : Nat) (root : ByteSpan) (offset : Nat) (f : TableFile) :
    Option (Except DecodeErr (ResChunkHeader × TableFile)) :=
  let sr := root.sub offset (9223372036854775807 - offset)
  match readResChunkHeader sr 0 with
  | none => some (.error .readFailed)
  | some ch =>
    if ch.ChunkType = RES_STRING_POOL_TYPE then
      match readStringPool sr with
      | .error e => some (.error e)
      | .ok sp => some (.ok (ch, { f with stringPool := some sp }))
    else if ch.ChunkType = RES_TABLE_PACKAGE_TYPE then
      match readTablePackage fuel sr with
      | none => none
      | some (.error _) => none
      | some (.ok tp) =>
        some (.ok (ch, { f with tablePackages := mapInsert f.tablePackages tp.Header.Id tp }))
    else some (.ok (ch, f))

/-- The root chunk walk of `NewTableFile` (src/table.go lines 131-137), with
explicit fuel: `none` means the walk never terminates. -/
def tableChunkLoop (root : ByteSpan) (total : Nat) :
    Nat → Nat → TableFile → Option (Except DecodeErr TableFile)
  | 0, _, _ => none
  | fuel + 1, offset, f =>
    if offset < total then
      match readChunk fuel root offset f with
      | none => none
      | some (.error e) => some (.error e)
      | some (.ok (ch, f')) => tableChunkLoop root total fuel (offset + ch.Size) f'
    else some (.ok f)

/-- `NewTableFile` from src/table.go lines 122-139: wrap the byte source in
an unbounded section, read the table header (the source ignores this read's
error, leaving the zero-valued header), then walk chunks from `HeaderSize`
while `offset < Size`. -/
def NewTableFile (fuel : Nat) (data : List Nat) : Option (Except DecodeErr TableFile) :=
  let sr : ByteSpan := ⟨data, 0, 9223372036854775807⟩
  let header := (readResTableHeader sr 0).getD ⟨⟨0, 0, 0⟩, 0⟩
  tableChunkLoop sr header.Header.Size fuel header.Header.HeaderSize ⟨none, []⟩

/-- A configuration specifying only orientation 1 (portrait). -/
def cfgOrient1 : ResTableConfig := { defaultConfig with Orientation := 1 }

/-- A configuration specifying only orientation 2 (landscape). -/
def cfgOrient2 : ResTableConfig := { defaultConfig with Orientation := 2 }

/-- A configuration specifying only SDK minor version 1. -/
def cfgMinor1 : ResTableConfig := { defaultConfig with MinorVersion := 1 }

/-- A configuration specifying only SDK minor version 5. -/
def cfgMinor5 : ResTableConfig := { defaultConfig with MinorVersion := 5 }

/-- A configuration specifying only language "fr". -/
def cfgLangFr : ResTableConfig := { defaultConfig with Language := (102, 114) }

/-- A configuration specifying only SDK version 2. -/
def cfgSdk2 : ResTableConfig := { defaultConfig with SDKVersion := 2 }

/-- C1: the claim says `IsBetterThan(a,b,r)` and `IsBetterThan(b,a,r)` are
never both true.  The code violates it: for `a` specifying only orientation 1
and `b` specifying only orientation 2 (both of which `Match` the
all-unspecified reference, since `Match` never inspects orientation), the
orientation rule at src/table.go line 434 returns `c.Orientation != 0` as
soon as the two orientations differ, making both directions true. -/
theorem c1_isBetterThan_both_directions_true :
    cfgOrient1.IsBetterThan cfgOrient2 (some defaultConfig) = true ∧
    cfgOrient2.IsBetterThan cfgOrient1 (some defaultConfig) = true ∧
    cfgOrient1.Match defaultConfig = true ∧
    cfgOrient2.Match defaultConfig = true := by decide

/-- C5: the claim says an all-unspecified request accepts only candidates
unspecified on every inspected axis.  Counterexample: a candidate specifying
only language "fr" still matches the all-unspecified request, because the
locale (and screen-size and version) reject conditions fire only when the
requested field is specified. -/
theorem c5_language_matches_unspecified_request :
    cfgLangFr.Match defaultConfig = true ∧ cfgLangFr.Language ≠ (0, 0) := by decide

/-- C5 (amended): with an all-unspecified request, `Match` constrains exactly
the mcc and mnc axes: it accepts a candidate iff the candidate's Mcc and Mnc
are both unspecified, leaving language, country, screen size, SDK version and
minor version unconstrained. -/
theorem c5_match_all_unspecified_iff_imsi_unspecified (c : ResTableConfig) :
    c.Match defaultConfig = true ↔ c.Mcc = 0 ∧ c.Mnc = 0 := by
  by_cases h1 : c.Mcc = 0 <;> by_cases h2 : c.Mnc = 0 <;>
    simp [ResTableConfig.Match, defaultConfig, h1, h2]

/-- C6: the claim says a candidate whose SDK version strictly exceeds the
requested one never matches.  Counterexample: the requested configuration may
leave the SDK version unspecified (zero); a candidate specifying SDK version
2 > 0 still matches, because the version reject condition requires the
requested SDK version to be nonzero. -/
theorem c6_sdk_exceeds_unspecified_request_matches :
    cfgSdk2.Match defaultConfig = true ∧
    cfgSdk2.SDKVersion > defaultConfig.SDKVersion := by decide

set_option maxHeartbeats 2000000 in
/-- C6 (amended): when the requested configuration does specify an SDK
version, a candidate specifying a strictly greater SDK version never
matches. -/
theorem c6_sdk_greater_never_matches (c r : ResTableConfig)
    (hr : r.SDKVersion ≠ 0) (hc : c.SDKVersion > r.SDKVersion) :
    c.Match r = false := by
  unfold ResTableConfig.Match
  repeat' split
  all_goals first | rfl | omega

/-- C6 witness: the amended theorem applied at a candidate with SDK version 5
against a request with SDK version 3. -/
theorem c6_sdk_greater_never_matches_witness :
    ({ defaultConfig with SDKVersion := 5 } : ResTableConfig).Match
      { defaultConfig with SDKVersion := 3 } = false :=
  c6_sdk_greater_never_matches { defaultConfig with SDKVersion := 5 }
    { defaultConfig with SDKVersion := 3 } (by decide) (by decide)

/-- C7: the claim says that when the minor-version axis is live (at least one
of candidate/other specifies it) and no higher-priority axis decides, a
candidate specifying a minor version beats one leaving it unspecified,
regardless of the reference.  The code violates it: the version-block guard at
src/table.go line 455 tests `c.SDKVersion` twice and `o.MinorVersion` twice
(instead of both fields of both configurations), so for candidate
`{MinorVersion: 1}` against an all-unspecified other the block is skipped and
the candidate does not win — whether or not the reference specifies the
axis. -/
theorem c7_minor_version_specified_does_not_win :
    cfgMinor1.IsBetterThan defaultConfig (some defaultConfig) = false ∧
    cfgMinor1.IsBetterThan defaultConfig (some cfgMinor5) = false := by decide

/-- C8: a candidate with every axis unspecified matches any requested
configuration: every reject condition of `Match` requires some candidate
field to be nonzero. -/
theorem c8_default_config_matches_any (r : ResTableConfig) :
    defaultConfig.Match r = true := by
  simp [ResTableConfig.Match, defaultConfig]

/-- C2: the claim says resolving an id whose package is absent returns the
recoverable result `UnknownPackage` and never crashes.  The code violates it:
`findPackage` yields the nil pointer, which `GetResource` immediately hands
to `findType`, whose receiver dereference panics — the Go `(interface{},
error)` pair is never constructed, so no error value can be observed. -/
theorem c2_unknown_package_panics (f : TableFile) (id : ResId) (cfg : ResTableConfig)
    (h : f.findPackage id.Package = none) : f.GetResource id cfg = none := by
  unfold TableFile.GetResource
  rw [h]

/-- C2 witness: the theorem applied to the empty table and resource id
0x7F000000 (package 0x7F, absent from the empty package map). -/
theorem c2_unknown_package_panics_witness :
    (⟨none, []⟩ : TableFile).GetResource 2130706432 defaultConfig = none :=
  c2_unknown_package_panics ⟨none, []⟩ 2130706432 defaultConfig rfl

/-- C9: during best-match selection in `findType`, a later matching variant
replaces the current best exactly when `IsBetterThan` says it is strictly
better; on a tie the earlier variant is kept.  Stated over a package holding
two matching variants of the requested type id. -/
theorem c9_tie_keeps_first_variant (P : TablePackage) (a b : TableType)
    (i : Nat) (cfg : ResTableConfig)
    (hP : P.TableTypes = [a, b])
    (ha : a.Header.Id = i) (hb : b.Header.Id = i)
    (hma : a.Header.Config.Match cfg = true) (hmb : b.Header.Config.Match cfg = true) :
    P.findType i cfg =
      if b.Header.Config.IsBetterThan a.Header.Config (some cfg) = true
      then some b else some a := by
  unfold TablePackage.findType
  rw [hP]
  simp [List.foldl, ha, hb, hma, hmb]

/-- A minimal type variant with the all-unspecified configuration, used as a
concrete scan candidate. -/
def ttDefaultA : TableType :=
  ⟨⟨⟨513, 52, 56⟩, 1, 0, 0, 0, 56, defaultConfig⟩, []⟩

/-- A second minimal variant of the same type id, distinguishable from
`ttDefaultA` only by its declared chunk size. -/
def ttDefaultB : TableType :=
  ⟨⟨⟨513, 52, 60⟩, 1, 0, 0, 0, 60, defaultConfig⟩, []⟩

/-- A package holding the two tied variants `ttDefaultA` then `ttDefaultB`. -/
def pkgTie : TablePackage :=
  ⟨⟨⟨512, 284, 0⟩, 1, [], 0, 0, 0, 0⟩, none, none, [ttDefaultA, ttDefaultB]⟩

/-- C9 witness: the theorem applied to the two tied all-unspecified variants;
the `if` evaluates to the first-seen variant `ttDefaultA`. -/
theorem c9_tie_keeps_first_variant_witness :
    pkgTie.findType 1 defaultConfig =
      if ttDefaultB.Header.Config.IsBetterThan ttDefaultA.Header.Config
          (some defaultConfig) = true
      then some ttDefaultB else some ttDefaultA :=
  c9_tie_keeps_first_variant pkgTie ttDefaultA ttDefaultB 1 defaultConfig
    rfl rfl rfl (by decide) (by decide)

/-- C10: on every execution path on which `GetResource` returns at all
(rather than panicking), the error component of the returned pair is nil:
every `return` statement in src/table.go lines 161-179 returns a nil
error. -/
theorem c10_error_always_nil (f : TableFile) (id : ResId) (cfg : ResTableConfig)
    (out : GoValue × Option Unit) (h : f.GetResource id cfg = some out) :
    out.2 = none := by
  unfold TableFile.GetResource at h
  repeat' split at h
  all_goals cases h
  all_goals rfl

/-- The table used to witness C10: one package (id 1) with one type variant
(id 1, all-unspecified configuration) holding a single decimal-integer entry
with payload 42. -/
def tfC10 : TableFile :=
  ⟨none,
    [(1, ⟨⟨⟨512, 284, 0⟩, 1, [], 0, 0, 0, 0⟩, none, none,
      [⟨⟨⟨513, 52, 84⟩, 1, 0, 0, 1, 68, defaultConfig⟩,
        [⟨some ⟨8, 0, 0⟩, some ⟨8, 0, 16, 42⟩, 0⟩]⟩]⟩)]⟩

/-- C10 witness: the theorem applied to `tfC10` at resource id 0x01010000,
where `GetResource` returns value 42 with a nil error. -/
theorem c10_error_always_nil_witness :
    ((GoValue.vint 42, (none : Option Unit)) : GoValue × Option Unit).2 = none :=
  c10_error_always_nil tfC10 16842752 defaultConfig (GoValue.vint 42, none) (by decide)

/-- Byte image of one "type" chunk: type id 1, header size 52, total size 56,
entry count 1, entries start 56, an all-zero embedded configuration (declared
config size 32), and a single entry-index slot holding the all-ones sentinel
0xFFFFFFFF. -/
def c3bytes : List Nat :=
  [1, 2, 52, 0, 56, 0, 0, 0,
   1, 0, 0, 0, 1, 0, 0, 0, 56, 0, 0, 0,
   32, 0, 0, 0, 0, 0, 0, 0, 0, 0, 0, 0, 0, 0, 0, 0,
   0, 0, 0, 0, 0, 0, 0, 0, 0, 0, 0, 0, 0, 0, 0, 0,
   255, 255, 255, 255]

/-- The span handed to `readTableType` for the chunk above (its section is
bounded by the chunk's declared size, 56). -/
def c3span : ByteSpan := ⟨c3bytes, 0, 56⟩

/-- The in-memory type variant `readTableType` produces from `c3bytes`: one
entry slot left at the zero value (nil key, nil value) by the sentinel. -/
def c3type : TableType :=
  ⟨⟨⟨513, 52, 56⟩, 1, 0, 0, 1, 56,
    ⟨32, 0, 0, (0, 0), (0, 0), 0, 0, 0, 0, 0, 0, 0, 0, 0, 0, 0, 0, 0, 0, 0⟩⟩,
   [⟨none, none, 0⟩]⟩

/-- A decoded table holding `c3type` as the sole variant of type 1 in
package 1. -/
def c3table : TableFile :=
  ⟨none, [(1, ⟨⟨⟨512, 284, 0⟩, 1, [], 0, 0, 0, 0⟩, none, none, [c3type]⟩)]⟩

/-- C3: the claim says a sentinel (0xFFFFFFFF) slot or an out-of-range entry
index resolves to `UnknownEntry` without crashing.  The code violates it:
decoding does leave the sentinel slot empty (nil key, nil value), but
`GetResource` then dereferences the nil `*ResValue` for resource id
0x01010000 (entry 0, the sentinel slot), and indexes `t.Entries` out of range
for id 0x01010001 (entry 1 of a 1-entry type) — both are panics (`none`), and
no `UnknownEntry` result exists anywhere in the code. -/
theorem c3_sentinel_and_out_of_range_panic :
    readTableType c3span = .ok c3type ∧
    c3type.Entries = [⟨none, none, 0⟩] ∧
    (⟨⟨⟨512, 284, 0⟩, 1, [], 0, 0, 0, 0⟩, none, none, [c3type]⟩ : TablePackage).findType
      1 defaultConfig = some c3type ∧
    c3table.GetResource 16842752 defaultConfig = none ∧
    c3table.GetResource 16842753 defaultConfig = none :=
  ⟨rfl, rfl, rfl, rfl, rfl⟩

/-- Byte image of a whole table whose root walk gets stuck: a 12-byte table
header (declared total size 20, header size 12) followed at offset 12 by a
chunk of unrecognized type 0 whose declared total size is 0.  The root walk
reads that chunk header successfully, treats the chunk as skippable, and
advances the offset by 0 forever. -/
def c4bytes : List Nat :=
  [2, 0, 12, 0, 20, 0, 0, 0, 0, 0, 0, 0,
   0, 0, 8, 0, 0, 0, 0, 0]

/-- The root span `NewTableFile` builds over `c4bytes`
(`io.NewSectionReader(r, 0, 1<<63-1)`). -/
def c4span : ByteSpan := ⟨c4bytes, 0, 9223372036854775807⟩

/-- The root chunk walk over `c4bytes` never leaves offset 12: one pass reads
the zero-size chunk, adds 0 to the offset, and repeats, for any remaining
fuel and any intermediate table state. -/
theorem c4_loop_stuck_at_offset_12 (n : Nat) :
    ∀ f : TableFile, tableChunkLoop c4span 20 n 12 f = none := by
  induction n with
  | zero => intro f; rfl
  | succ n ih => intro f; exact ih f

/-- C4: the claim says a chunk whose declared size would not advance the
offset is a fatal decode error and the walk always terminates.  The code
violates it: `NewTableFile` has no such guard, so on `c4bytes` the walk loops
forever — for every fuel bound it fails to produce either a table or a
`DecodeError`. -/
theorem c4_zero_size_chunk_never_terminates (fuel : Nat) :
    NewTableFile fuel c4bytes = none :=
  c4_loop_stuck_at_offset_12 fuel ⟨none, []⟩
